import Mathlib

/-!
Verification development for the `sistema_gestion` point-of-sale backend.

This file is a shallow embedding of the core business logic of the
repository (Django models and services) into Lean:

* monetary amounts (`DecimalField`) become `ℚ`; integer fields become `ℤ`/`ℕ`;
* Python `Decimal.quantize(Decimal('1'), ROUND_HALF_UP)` becomes `roundHalfUp`;
  the source's 28-significant-digit `Decimal` division is modelled by exact
  rational division (for the 12-digit amounts the schema admits, the two agree
  on every half-up rounding decision made by the code, because the exact values
  are never closer than 1/42 to a rounding boundary while the `Decimal`
  approximation error is below 10⁻¹⁵);
* each database table becomes a list of rows; rows inserted later appear later
  in the list, which models ordering by the `auto_now_add` timestamp columns;
* `@transaction.atomic` services become functions `DB → args → DB × Except String r`
  returning the original `DB` when an exception escapes (full rollback);
* a Django `NOT NULL` column that a service fails to supply is modelled by an
  `Option` field in the insert interface whose `none` makes the insert raise,
  mirroring the database `IntegrityError`.

Sources embedded: `backend/sales/models.py`, `backend/sales/services.py`,
`backend/stock/models.py`, `backend/stock/services.py`,
`backend/customers/models.py`, `backend/customers/views_accounts.py`,
`backend/suppliers/models.py`, `backend/suppliers/services.py`.
-/

/-- Python `Decimal.quantize(Decimal('1'), ROUND_HALF_UP)`: round to the nearest
integer, ties away from zero. -/
def roundHalfUp (q : ℚ) : ℤ :=
  if 0 ≤ q then ⌊q + 1/2⌋ else -⌊-q + 1/2⌋

/-- Python `int(...)` applied to a `Decimal`: truncation toward zero. -/
def ratTruncToInt (q : ℚ) : ℤ :=
  if 0 ≤ q then ⌊q⌋ else -⌊-q⌋

/-- Tax-rate table of `SaleItem.calculate_totals` (sales/models.py lines
238-242): tax_type '10' ↦ 0.10, '5' ↦ 0.05, anything else (EXENTA) ↦ 0. -/
def taxRateOfType (tax_type : String) : ℚ :=
  if tax_type = "10" then 1/10
  else if tax_type = "5" then 1/20
  else 0

/-- Tax-extraction step of `SaleItem.calculate_totals` (sales/models.py lines
244-249), as a function of the post-discount tax-inclusive subtotal: when the
rate is positive, `base_price = subtotal / (1 + tax_rate)` and the stored tax is
`(subtotal - base_price)` rounded half-up to a whole guaraní; otherwise 0. -/
def extractTax (subtotal : ℤ) (tax_type : String) : ℤ :=
  let tax_rate := taxRateOfType tax_type
  if tax_rate > 0 then
    let base_price : ℚ := (subtotal : ℚ) / (1 + tax_rate)
    roundHalfUp ((subtotal : ℚ) - base_price)
  else 0

/-- Modelled from the spec (§4.1 Tax Engine), for comparison with the code's
`extractTax`: `decompose(total, rate)`; for rate 0, base = total and tax = 0;
otherwise base = round_half_up(total / (1+rate)) and tax = total - base. -/
def decomposeSpec (total : ℤ) (rate : ℚ) : ℤ × ℤ :=
  if rate = 0 then (total, 0)
  else
    let base := roundHalfUp ((total : ℚ) / (1 + rate))
    (base, total - base)

/-- Row of the `SaleItem` table (sales/models.py lines 186-211).  Auto
timestamps and the surrogate key are omitted; `sale_id`/`product_id` are the
foreign keys. -/
structure SaleItemRow where
  tenant : ℕ
  sale_id : ℕ
  product_id : ℕ
  quantity : ℤ
  unit_price : ℤ
  discount_percent : ℚ
  tax_type : String
  discount_amount : ℤ
  subtotal : ℤ
  tax_amount : ℤ
deriving DecidableEq, Repr

/-- `SaleItem.calculate_totals` (sales/models.py lines 222-251): gross = price ×
quantity; discount = round_half_up(gross × discount_percent / 100); subtotal =
gross - discount (still tax-inclusive); tax extracted from the subtotal. -/
def calculateTotals (it : SaleItemRow) : SaleItemRow :=
  let gross_total : ℤ := it.unit_price * it.quantity
  let d := roundHalfUp ((gross_total : ℚ) * it.discount_percent / 100)
  let s := gross_total - d
  let t := extractTax s it.tax_type
  { it with discount_amount := d, subtotal := s, tax_amount := t }

example :
    (calculateTotals
      { tenant := 1, sale_id := 0, product_id := 1, quantity := 1, unit_price := 1100,
        discount_percent := 0, tax_type := "10", discount_amount := 0, subtotal := 0,
        tax_amount := 0 }).tax_amount = 100 := by
  simp [calculateTotals, extractTax, taxRateOfType, roundHalfUp]
  norm_num

example : extractTax 1050 "5" = 50 := by
  simp [extractTax, taxRateOfType, roundHalfUp]
  norm_num

example : extractTax 500 "EXENTA" = 0 := by
  simp [extractTax, taxRateOfType, roundHalfUp]

example : decomposeSpec 1100 (1/10) = (1000, 100) := by
  simp [decomposeSpec, roundHalfUp]
  norm_num

/-- Value of a Python attribute on a model instance, for modelling Python
attribute lookup (which raises `AttributeError` on unknown names). -/
inductive AttrVal where
  | int : ℤ → AttrVal
  | rat : ℚ → AttrVal
  | str : String → AttrVal
  | bool : Bool → AttrVal
  | pyNone : AttrVal
deriving DecidableEq, Repr

/-- Row of the `Product` table (stock/models.py lines 27-131).  The model's
fields are: code, name, description, category, cost_price, sale_price,
wholesale_price, current_stock, minimum_stock, unit, tax_rate, is_active,
track_inventory (plus auto timestamps, omitted).  Note that the model defines
`tax_rate` and does NOT define any `tax_type` field or property. -/
structure Product where
  id : ℕ
  tenant : ℕ
  code : String
  name : String
  description : String
  category : Option ℕ
  cost_price : ℚ
  sale_price : ℚ
  wholesale_price : Option ℚ
  current_stock : ℚ
  minimum_stock : ℚ
  unit : String
  tax_rate : ℚ
  is_active : Bool
  track_inventory : Bool
deriving DecidableEq, Repr

/-- Python attribute lookup on a `Product` instance: every field and property
declared in stock/models.py lines 27-131, and nothing else.  `none` models the
`AttributeError` Python raises for a name the class does not define.  The
properties `is_low_stock` and `profit_margin` (lines 121-131) are included. -/
def Product.getattr (p : Product) : String → Option AttrVal
  | "id" => some (.int p.id)
  | "tenant" => some (.int p.tenant)
  | "code" => some (.str p.code)
  | "name" => some (.str p.name)
  | "description" => some (.str p.description)
  | "category" => some (match p.category with
      | some c => .int c
      | none => .pyNone)
  | "cost_price" => some (.rat p.cost_price)
  | "sale_price" => some (.rat p.sale_price)
  | "wholesale_price" => some (match p.wholesale_price with
      | some w => .rat w
      | none => .pyNone)
  | "current_stock" => some (.rat p.current_stock)
  | "minimum_stock" => some (.rat p.minimum_stock)
  | "unit" => some (.str p.unit)
  | "tax_rate" => some (.rat p.tax_rate)
  | "is_active" => some (.bool p.is_active)
  | "track_inventory" => some (.bool p.track_inventory)
  | "is_low_stock" => some (.bool (decide (p.current_stock ≤ p.minimum_stock)))
  | "profit_margin" =>
      some (.rat (if 0 < p.cost_price then (p.sale_price - p.cost_price) / p.cost_price * 100 else 0))
  | _ => none

/-- The crux of the `tax_type` snapshot bug: `Product` declares no attribute
named `tax_type` (stock/models.py defines `tax_rate` instead). -/
theorem Product.getattr_tax_type (p : Product) : p.getattr "tax_type" = none := rfl

/-- Row of the `Sale` table (sales/models.py lines 11-151).  The UUID primary
key is modelled as a `ℕ` surrogate; auto timestamps are omitted (row order in
the `DB` models `created_at` order). -/
structure SaleRow where
  id : ℕ
  tenant : ℕ
  invoice_number : String
  customer : Option ℕ
  subtotal : ℤ
  tax_amount : ℤ
  discount_amount : ℤ
  total_amount : ℤ
  currency_paid : String
  paid_amount_original : ℚ
  exchange_rate_usd : ℚ
  exchange_rate_brl : ℚ
  payment_method : String
  paid_amount : ℤ
  change_amount : ℤ
  pix_reference : String
  status : String
  notes : String
deriving DecidableEq, Repr

/-- `Sale.outstanding_balance` (sales/models.py lines 161-164):
`max(0, total_amount - paid_amount)`. -/
def SaleRow.outstanding_balance (s : SaleRow) : ℤ :=
  max 0 (s.total_amount - s.paid_amount)

/-- Row of the `Customer` table (customers/models.py lines 8-132); only the
fields the embedded services read or write. -/
structure CustomerRow where
  id : ℕ
  tenant : ℕ
  name : String
  credit_limit : ℚ
  current_balance : ℚ
deriving DecidableEq, Repr

/-- Row of the `CustomerAccount` ledger (customers/models.py lines 178-259). -/
structure CustomerAccountRow where
  tenant : ℕ
  customer : ℕ
  transaction_type : String
  amount : ℚ
  sale : Option ℕ
  reference : String
  payment_method : String
  due_date : Option ℕ
  promised_date : Option ℕ
  total_installments : ℤ
  installment_number : ℤ
  parent_transaction : Option ℕ
  notes : String
deriving DecidableEq, Repr

/-- Row of the `StockMovement` table (stock/models.py lines 134-183).  Both
`previous_stock` and `new_stock` are non-nullable columns with no default. -/
structure StockMovementRow where
  tenant : ℕ
  product_id : ℕ
  movement_type : String
  quantity : ℚ
  previous_stock : ℚ
  new_stock : ℚ
  reference : String
  notes : String
deriving DecidableEq, Repr

/-- Arguments of a `StockMovement.objects.create(...)` call.  The fields
`previous_stock` and `new_stock` are `Option`s here because a caller can omit
them (as `SaleService.cancel_sale` does); since the columns are `NOT NULL`
with no default, an omitted field makes the INSERT raise `IntegrityError`. -/
structure StockMovementInsert where
  tenant : ℕ
  product_id : ℕ
  movement_type : String
  quantity : ℚ
  previous_stock : Option ℚ
  new_stock : Option ℚ
  reference : String
  notes : String
deriving DecidableEq, Repr

/-- Full database state.  Each list is a table; later rows were inserted
later (`auto_now_add` order). -/
structure DB where
  products : List Product
  sales : List SaleRow
  saleItems : List SaleItemRow
  movements : List StockMovementRow
  customers : List CustomerRow
  customerAccounts : List CustomerAccountRow
deriving DecidableEq, Repr

/-- `StockMovement.objects.create(...)`: checks the two `NOT NULL` columns the
services sometimes omit, then appends the row. -/
def DB.insertMovement (db : DB) (m : StockMovementInsert) : Except String DB :=
  match m.previous_stock, m.new_stock with
  | some prev, some new_stock =>
      .ok { db with movements := db.movements ++
              [{ tenant := m.tenant, product_id := m.product_id,
                 movement_type := m.movement_type, quantity := m.quantity,
                 previous_stock := prev, new_stock := new_stock,
                 reference := m.reference, notes := m.notes }] }
  | _, _ => .error "IntegrityError: NOT NULL constraint failed on stock movement"

/-- `Product.objects.get(id=..., tenant=...)`: first matching row, if any
(`DoesNotExist` otherwise).  Product ids are unique in all states considered. -/
def DB.findProduct (db : DB) (tenant pid : ℕ) : Option Product :=
  db.products.find? (fun p => p.id = pid ∧ p.tenant = tenant)

/-- `product.save()`: replace the row with the same id. -/
def DB.saveProduct (db : DB) (p : Product) : DB :=
  { db with products := db.products.map (fun q => if q.id = p.id then p else q) }

def DB.findCustomer (db : DB) (tenant cid : ℕ) : Option CustomerRow :=
  db.customers.find? (fun c => c.id = cid ∧ c.tenant = tenant)

def DB.saveCustomer (db : DB) (c : CustomerRow) : DB :=
  { db with customers := db.customers.map (fun d => if d.id = c.id then c else d) }

def DB.findSale (db : DB) (sid : ℕ) : Option SaleRow :=
  db.sales.find? (fun s => s.id = sid)

def DB.saveSale (db : DB) (s : SaleRow) : DB :=
  { db with sales := db.sales.map (fun t => if t.id = s.id then s else t) }

/-- Python `str.split(sep)` for a one-character separator (keeps empty
pieces, always returns at least one piece). -/
def splitOnChar (c : Char) : List Char → List (List Char)
  | [] => [[]]
  | x :: xs =>
    let r := splitOnChar c xs
    if x = c then [] :: r
    else
      match r with
      | [] => [[x]]
      | h :: t => (x :: h) :: t

def isAsciiDigit (c : Char) : Bool := decide ('0' ≤ c) && decide (c ≤ '9')

def charDigit (c : Char) : ℕ := c.toNat - '0'.toNat

/-- Python `int(...)` on a string: succeeds on a non-empty all-digit string
(the only shapes reachable here), fails otherwise. -/
def pyIntOfDigits (l : List Char) : Option ℕ :=
  if l ≠ [] ∧ l.all isAsciiDigit then
    some (Nat.ofDigits 10 ((l.map charDigit).reverse))
  else none

/-- `int(last_sale.invoice_number.split('-')[-1])` under the `try` of
sales/services.py lines 42-43; `none` models the `except` branch. -/
def parseInvoiceTail (s : String) : Option ℕ :=
  pyIntOfDigits ((splitOnChar '-' s.data).getLastD [])

/-- Decimal digits of `n`, most significant first (empty for 0, as the pad
below absorbs). -/
def natDigitChars (n : ℕ) : List Char :=
  ((Nat.digits 10 n).map Nat.digitChar).reverse

/-- Python `f"INV-{n:06d}"`. -/
def fmtInvoice (n : ℕ) : String :=
  String.mk ("INV-".data ++ List.replicate (6 - (natDigitChars n).length) '0' ++ natDigitChars n)

/-- Invoice-number generation of `SaleService.create_sale` (sales/services.py
lines 39-48): take the tenant's most recent sale (by `created_at`, i.e. the
last inserted); if it exists and has a non-empty invoice number, try to parse
the piece after the final '-' and use its successor, formatted `INV-%06d`;
on a parse failure, or with no prior sale, fall back to the constant
`INV-000001`. -/
def genInvoiceNumber (db : DB) (tenant : ℕ) : String :=
  match (db.sales.filter (fun s => s.tenant = tenant)).getLast? with
  | some last_sale =>
    if last_sale.invoice_number ≠ "" then
      match parseInvoiceTail last_sale.invoice_number with
      | some last_number => fmtInvoice (last_number + 1)
      | none => "INV-000001"
    else "INV-000001"
  | none => "INV-000001"

/-- One element of `items_data` (sales/services.py line 24): `unit_price` is
optional and defaults to the product's current sale price. -/
structure ItemData where
  product_id : ℕ
  quantity : ℤ
  unit_price : Option ℚ
  discount_percent : ℚ
deriving DecidableEq, Repr

/-- Arguments of `SaleService.create_sale` (sales/services.py lines 14-18). -/
structure CreateSaleArgs where
  tenant : ℕ
  items_data : List ItemData
  customer : Option ℕ
  payment_method : String
  paid_amount : ℚ
  notes : String
  currency_paid : String
  paid_amount_original : ℚ
  exchange_rate_usd : ℚ
  exchange_rate_brl : ℚ
  pix_reference : String
deriving DecidableEq, Repr

/-- Fresh surrogate id for a new `Sale` row (the source uses a UUID). -/
def DB.freshSaleId (db : DB) : ℕ :=
  db.sales.foldr (fun s m => max (s.id + 1) m) 0

/-- Stock update and movement posting of the `create_sale` item loop
(sales/services.py lines 103-119): `previous_stock = product.current_stock`;
`product.current_stock -= quantity`; then a movement of type 'sale' is created
with `quantity=quantity` (the positive sold quantity as passed in) and the
snapshot columns filled in. -/
def createSaleStockStep (tenant : ℕ) (invoice : String) (p : Product) (quantity : ℤ) :
    Product × StockMovementInsert :=
  let previous_stock := p.current_stock
  let p' := { p with current_stock := p.current_stock - (quantity : ℚ) }
  (p', { tenant := tenant, product_id := p.id, movement_type := "sale",
         quantity := (quantity : ℚ), previous_stock := some previous_stock,
         new_stock := some p'.current_stock, reference := invoice,
         notes := "Venta " ++ invoice })

/-- Accumulator of the `create_sale` item loop (sales/services.py lines
71-73): the working database plus the three running totals. -/
structure ItemLoopAcc where
  db : DB
  total_subtotal : ℤ
  total_tax : ℤ
  total_discount : ℤ
deriving DecidableEq, Repr

/-- The `for item_data in items_data` loop of `create_sale` (sales/services.py
lines 76-119).  Each iteration resolves the product within the tenant
(`DoesNotExist` on failure), computes quantity/unit_price/discount, then
builds the `SaleItem` with `tax_type=product.tax_type` — a Python attribute
lookup on `Product`, which defines no such attribute, so this raises
`AttributeError` on every iteration.  The rest of the body (totals, stock
decrement, movement) is translated for completeness but is unreachable. -/
def processItems (tenant : ℕ) (sale_id : ℕ) (invoice : String) :
    List ItemData → ItemLoopAcc → Except String ItemLoopAcc
  | [], acc => .ok acc
  | item :: rest, acc =>
    match acc.db.findProduct tenant item.product_id with
    | none => .error "Product matching query does not exist"
    | some product =>
      let quantity := item.quantity
      let unit_price := ratTruncToInt (match item.unit_price with
        | some u => u
        | none => product.sale_price)
      let discount_percent := item.discount_percent
      match product.getattr "tax_type" with
      | none => .error "AttributeError: Product object has no attribute tax_type"
      | some tt =>
        let tax_type := match tt with
          | .str sVal => sVal
          | _ => ""
        let sale_item := calculateTotals
          { tenant := tenant, sale_id := sale_id, product_id := product.id,
            quantity := quantity, unit_price := unit_price,
            discount_percent := discount_percent, tax_type := tax_type,
            discount_amount := 0, subtotal := 0, tax_amount := 0 }
        let db1 := { acc.db with saleItems := acc.db.saleItems ++ [sale_item] }
        let step := createSaleStockStep tenant invoice product quantity
        let db2 := db1.saveProduct step.1
        match db2.insertMovement step.2 with
        | .error e => .error e
        | .ok db3 =>
          processItems tenant sale_id invoice rest
            { db := db3,
              total_subtotal := acc.total_subtotal + sale_item.subtotal,
              total_tax := acc.total_tax + sale_item.tax_amount,
              total_discount := acc.total_discount + sale_item.discount_amount }

/-- `SaleService.create_sale` body (sales/services.py lines 39-138), without
the `@transaction.atomic` rollback (added by the wrapper below).  Steps:
generate the invoice number; insert the `Sale` row with zeroed totals and
status 'completed'; run the item loop; set the header totals (`subtotal` and
`total_amount` are BOTH set to the running sum of the tax-inclusive line
subtotals, lines 121-125); compute change when `paid_amount >= total`; on
credit with a customer, add `sale.outstanding_balance` to the customer's
`current_balance` (no `CustomerAccount` row is created); save the sale. -/
def createSaleCore (db : DB) (a : CreateSaleArgs) : Except String (DB × SaleRow) :=
  let invoice_number := genInvoiceNumber db a.tenant
  let sale0 : SaleRow :=
    { id := db.freshSaleId, tenant := a.tenant, invoice_number := invoice_number,
      customer := a.customer, subtotal := 0, tax_amount := 0, discount_amount := 0,
      total_amount := 0, currency_paid := a.currency_paid,
      paid_amount_original := a.paid_amount_original,
      exchange_rate_usd := a.exchange_rate_usd, exchange_rate_brl := a.exchange_rate_brl,
      payment_method := a.payment_method, paid_amount := ratTruncToInt a.paid_amount,
      change_amount := 0, pix_reference := a.pix_reference, status := "completed",
      notes := a.notes }
  let db0 := { db with sales := db.sales ++ [sale0] }
  match processItems a.tenant sale0.id invoice_number a.items_data ⟨db0, 0, 0, 0⟩ with
  | .error e => .error e
  | .ok acc =>
    let sale1 :=
      { sale0 with subtotal := acc.total_subtotal, tax_amount := acc.total_tax,
                   discount_amount := acc.total_discount, total_amount := acc.total_subtotal }
    let sale2 :=
      if a.paid_amount ≥ (sale1.total_amount : ℚ) then
        { sale1 with change_amount := ratTruncToInt (a.paid_amount - (sale1.total_amount : ℚ)) }
      else sale1
    let afterCredit : Except String DB :=
      if a.payment_method = "credit" then
        match a.customer with
        | some cid =>
          match acc.db.findCustomer a.tenant cid with
          | some c =>
              .ok (acc.db.saveCustomer
                { c with current_balance := c.current_balance + (sale2.outstanding_balance : ℚ) })
          | none => .error "Customer matching query does not exist"
        | none => .ok acc.db
      else .ok acc.db
    match afterCredit with
    | .error e => .error e
    | .ok db1 => .ok (db1.saveSale sale2, sale2)

/-- `SaleService.create_sale` with its `@transaction.atomic` semantics: on any
escaping exception the whole transaction rolls back and the database is
unchanged. -/
def createSale (db : DB) (a : CreateSaleArgs) : DB × Except String SaleRow :=
  match createSaleCore db a with
  | .ok r => (r.1, .ok r.2)
  | .error e => (db, .error e)

/-- Stock restore and movement posting of the `cancel_sale` item loop
(sales/services.py lines 150-164): the stock is incremented by the sold
quantity and a compensating movement of type 'adjustment' is created — but
the `StockMovement.objects.create` call passes no `previous_stock` and no
`new_stock` (both `NOT NULL` columns), unlike the one in `create_sale`. -/
def cancelSaleStockStep (tenant : ℕ) (invoice : String) (p : Product) (quantity : ℤ) :
    Product × StockMovementInsert :=
  let p' := { p with current_stock := p.current_stock + (quantity : ℚ) }
  (p', { tenant := tenant, product_id := p.id, movement_type := "adjustment",
         quantity := (quantity : ℚ), previous_stock := none, new_stock := none,
         reference := "CANCEL-" ++ invoice,
         notes := "Cancelacion de venta " ++ invoice })

/-- The `for item in sale.items.all()` loop of `cancel_sale` (sales/services.py
lines 150-164). -/
def cancelItems (tenant : ℕ) (invoice : String) : List SaleItemRow → DB → Except String DB
  | [], db => .ok db
  | item :: rest, db =>
    match db.findProduct tenant item.product_id with
    | none => .error "Product matching query does not exist"
    | some product =>
      let step := cancelSaleStockStep tenant invoice product item.quantity
      let db1 := db.saveProduct step.1
      match db1.insertMovement step.2 with
      | .error e => .error e
      | .ok db2 => cancelItems tenant invoice rest db2

/-- `SaleService.cancel_sale` body (sales/services.py lines 140-174) without
the rollback wrapper: refuse an already-cancelled sale; restore stock per line
item (posting the compensating movements); on a credit sale with a customer,
subtract `sale.outstanding_balance` from the customer's balance; set status
'cancelled'.  The original Sale/SaleItem rows are not deleted. -/
def cancelSaleCore (db : DB) (sale_id : ℕ) : Except String (DB × SaleRow) :=
  match db.findSale sale_id with
  | none => .error "Sale matching query does not exist"
  | some sale =>
    if sale.status = "cancelled" then .error "Sale is already cancelled"
    else
      let items := db.saleItems.filter (fun i => i.sale_id = sale_id)
      match cancelItems sale.tenant sale.invoice_number items db with
      | .error e => .error e
      | .ok db1 =>
        let afterCredit : Except String DB :=
          match sale.customer with
          | some cid =>
            if sale.payment_method = "credit" then
              match db1.findCustomer sale.tenant cid with
              | some c =>
                  .ok (db1.saveCustomer
                    { c with current_balance := c.current_balance - (sale.outstanding_balance : ℚ) })
              | none => .error "Customer matching query does not exist"
            else .ok db1
          | none => .ok db1
        match afterCredit with
        | .error e => .error e
        | .ok db2 =>
          let cancelled := { sale with status := "cancelled" }
          .ok (db2.saveSale cancelled, cancelled)

/-- `SaleService.cancel_sale` with `@transaction.atomic` rollback. -/
def cancelSale (db : DB) (sale_id : ℕ) : DB × Except String SaleRow :=
  match cancelSaleCore db sale_id with
  | .ok r => (r.1, .ok r.2)
  | .error e => (db, .error e)

/-- `StockService.adjust_stock` body (stock/services.py lines 11-45):
`previous_stock = product.current_stock`; `current_stock += quantity`; append a
movement of type 'adjustment' carrying both snapshot columns. -/
def adjustStockCore (db : DB) (tenant pid : ℕ) (quantity : ℚ) (reference notes : String) :
    Except String DB :=
  match db.findProduct tenant pid with
  | none => .error "Product matching query does not exist"
  | some product =>
    let previous_stock := product.current_stock
    let p' := { product with current_stock := product.current_stock + quantity }
    let db1 := db.saveProduct p'
    db1.insertMovement
      { tenant := product.tenant, product_id := product.id,
        movement_type := "adjustment", quantity := quantity,
        previous_stock := some previous_stock, new_stock := some p'.current_stock,
        reference := reference, notes := notes }

/-- `StockService.adjust_stock` with `@transaction.atomic` rollback. -/
def adjustStock (db : DB) (tenant pid : ℕ) (quantity : ℚ) (reference notes : String) :
    DB × Except String Unit :=
  match adjustStockCore db tenant pid quantity reference notes with
  | .ok db1 => (db1, .ok ())
  | .error e => (db, .error e)

/-- `StockService.register_purchase` body (stock/services.py lines 47-78):
like a positive adjustment, optionally updating the cost price, movement type
'purchase'. -/
def registerPurchaseCore (db : DB) (tenant pid : ℕ) (quantity : ℚ) (cost_price : Option ℚ)
    (reference notes : String) : Except String DB :=
  match db.findProduct tenant pid with
  | none => .error "Product matching query does not exist"
  | some product =>
    let previous_stock := product.current_stock
    let p0 := { product with current_stock := product.current_stock + quantity }
    let p' := match cost_price with
      | some cp => { p0 with cost_price := cp }
      | none => p0
    let db1 := db.saveProduct p'
    db1.insertMovement
      { tenant := product.tenant, product_id := product.id,
        movement_type := "purchase", quantity := quantity,
        previous_stock := some previous_stock, new_stock := some p'.current_stock,
        reference := reference, notes := notes }

/-- `StockService.register_purchase` with `@transaction.atomic` rollback. -/
def registerPurchase (db : DB) (tenant pid : ℕ) (quantity : ℚ) (cost_price : Option ℚ)
    (reference notes : String) : DB × Except String Unit :=
  match registerPurchaseCore db tenant pid quantity cost_price reference notes with
  | .ok db1 => (db1, .ok ())
  | .error e => (db, .error e)

/-- The header aggregation of `create_sale` (sales/services.py lines 71-73,
99-101 and 121-125), as a function of the computed line items: the running
sums become list sums; `sale.subtotal` and `sale.total_amount` are both set
to the sum of the line `subtotal` fields (which are tax-inclusive),
`sale.tax_amount` to the sum of the line taxes, `sale.discount_amount` to the
sum of the line discounts. -/
def saleHeaderTotals (ls : List SaleItemRow) : SaleRow → SaleRow := fun sale =>
  let total_subtotal := (ls.map (·.subtotal)).sum
  let total_tax := (ls.map (·.tax_amount)).sum
  let total_discount := (ls.map (·.discount_amount)).sum
  { sale with subtotal := total_subtotal, tax_amount := total_tax,
              discount_amount := total_discount, total_amount := total_subtotal }

/-- Row of the `SupplierAccount` ledger (suppliers/models.py lines 119-244).
Dates are logical day numbers; `parent_transaction`/`related_purchase` are
positions in the ledger list (the source uses foreign keys). -/
structure SupplierAccountRow where
  tenant : ℕ
  supplier : ℕ
  transaction_type : String
  amount : ℚ
  transaction_date : ℕ
  due_date : Option ℕ
  paid_date : Option ℕ
  total_installments : ℤ
  installment_number : ℤ
  parent_transaction : Option ℕ
  payment_method : String
  invoice_number : String
  reference : String
  notes : String
  related_purchase : Option ℕ
deriving DecidableEq, Repr

/-- `Supplier.get_balance` (suppliers/models.py lines 71-86): sum of
'purchase' rows with `installment_number > 0` (parents excluded), MINUS the
sum of 'payment' rows (whose amounts are stored positive), plus 'adjustment'
rows. -/
def supplierGetBalance (rows : List SupplierAccountRow) (supplier : ℕ) : ℚ :=
  let purchases := ((rows.filter (fun r =>
      r.supplier = supplier ∧ r.transaction_type = "purchase" ∧ 0 < r.installment_number)).map
      (·.amount)).sum
  let payments := ((rows.filter (fun r =>
      r.supplier = supplier ∧ r.transaction_type = "payment")).map (·.amount)).sum
  let adjustments := ((rows.filter (fun r =>
      r.supplier = supplier ∧ r.transaction_type = "adjustment")).map (·.amount)).sum
  purchases - payments + adjustments

/-- `create_purchase` (suppliers/services.py lines 9-78).  `due_date` is the
already-resolved due date (the source defaults it to today + payment terms).
A single-installment purchase is one row with `installment_number = 1`; an
N-installment purchase is a parent row (`installment_number = 0`) plus N
child rows of `amount / N` each, due dates staggered by 30 days. -/
def createPurchase (rows : List SupplierAccountRow) (tenant supplier : ℕ) (amount : ℚ)
    (invoice_number : String) (due_date : ℕ) (installments : ℕ) (notes : String)
    (today : ℕ) : List SupplierAccountRow :=
  if installments = 1 then
    rows ++ [{ tenant := tenant, supplier := supplier, transaction_type := "purchase",
               amount := amount, transaction_date := today, due_date := some due_date,
               paid_date := none, total_installments := 1, installment_number := 1,
               parent_transaction := none, payment_method := "",
               invoice_number := invoice_number, reference := "", notes := notes,
               related_purchase := none }]
  else
    let parentIdx := rows.length
    let parent : SupplierAccountRow :=
      { tenant := tenant, supplier := supplier, transaction_type := "purchase",
        amount := amount, transaction_date := today, due_date := some due_date,
        paid_date := none, total_installments := (installments : ℤ),
        installment_number := 0, parent_transaction := none, payment_method := "",
        invoice_number := invoice_number, reference := "",
        notes := notes ++ " - Compra en " ++ toString installments ++ " cuotas",
        related_purchase := none }
    let amount_per_installment := amount / (installments : ℚ)
    let children : List SupplierAccountRow := (List.range installments).map (fun i0 =>
      let i := i0 + 1
      { tenant := tenant, supplier := supplier, transaction_type := "purchase",
        amount := amount_per_installment, transaction_date := today,
        due_date := some (due_date + 30 * (i - 1)), paid_date := none,
        total_installments := (installments : ℤ), installment_number := (i : ℤ),
        parent_transaction := some parentIdx, payment_method := "",
        invoice_number := invoice_number ++ "-" ++ toString i, reference := "",
        notes := "Cuota " ++ toString i ++ " de " ++ toString installments,
        related_purchase := none })
    rows ++ [parent] ++ children

/-- The payment row built by `create_payment` (suppliers/services.py lines
88-99): transaction_type 'payment' with the amount stored AS GIVEN
(positive). -/
def supplierPaymentRow (tenant supplier : ℕ) (amount : ℚ) (payment_method : String)
    (related_purchase : Option ℕ) (reference notes : String) (today : ℕ) :
    SupplierAccountRow :=
  { tenant := tenant, supplier := supplier, transaction_type := "payment",
    amount := amount, transaction_date := today, due_date := none, paid_date := none,
    total_installments := 1, installment_number := 1, parent_transaction := none,
    payment_method := payment_method, invoice_number := "", reference := reference,
    notes := notes, related_purchase := related_purchase }

/-- `create_payment` (suppliers/services.py lines 81-106): append the payment
row; if a related purchase is designated and its amount equals the payment
exactly, mark that single row paid (set `paid_date`). -/
def createPayment (rows : List SupplierAccountRow) (tenant supplier : ℕ) (amount : ℚ)
    (payment_method : String) (related_purchase : Option ℕ) (reference notes : String)
    (today : ℕ) : List SupplierAccountRow :=
  let rows1 := rows ++ [supplierPaymentRow tenant supplier amount payment_method
    related_purchase reference notes today]
  match related_purchase with
  | some idx =>
    match rows1.get? idx with
    | some r => if r.amount = amount then rows1.set idx { r with paid_date := some today }
                else rows1
    | none => rows1
  | none => rows1

/-- `Customer.get_balance` (customers/models.py lines 119-124): plain sum of
`amount` over all of the customer's `CustomerAccount` rows. -/
def customerGetBalance (rows : List CustomerAccountRow) (customer : ℕ) : ℚ :=
  ((rows.filter (fun r => r.customer = customer)).map (·.amount)).sum

/-- The payment row built by the customer `register_payment` view
(customers/views_accounts.py lines 127-136): transaction_type 'payment',
amount stored NEGATED. -/
def customerPaymentRow (tenant customer : ℕ) (amount : ℚ)
    (payment_method reference notes : String) : CustomerAccountRow :=
  { tenant := tenant, customer := customer, transaction_type := "payment",
    amount := -amount, sale := none, reference := reference,
    payment_method := payment_method, due_date := none, promised_date := none,
    total_installments := 1, installment_number := 1, parent_transaction := none,
    notes := notes }

/-- `register_payment` (customers/views_accounts.py lines 116-136): rejects a
non-positive amount, otherwise appends the negated-amount payment row. -/
def registerCustomerPayment (rows : List CustomerAccountRow) (tenant customer : ℕ)
    (amount : ℚ) (payment_method reference notes : String) :
    Except String (List CustomerAccountRow) :=
  if amount ≤ 0 then .error "El monto debe ser mayor a cero"
  else .ok (rows ++ [customerPaymentRow tenant customer amount payment_method reference notes])

theorem roundHalfUp_of_nonneg {q : ℚ} (h : 0 ≤ q) : roundHalfUp q = ⌊q + 1/2⌋ := by
  simp [roundHalfUp, h]

/-- Half-up rounding of a nonnegative fraction, as pure natural division. -/
theorem roundHalfUp_natCast_div (a b : ℕ) (hb : 0 < b) :
    roundHalfUp ((a:ℚ)/(b:ℚ)) = (((2*a+b)/(2*b) : ℕ) : ℤ) := by
  rw [roundHalfUp_of_nonneg (by positivity)]
  have h : (a:ℚ)/(b:ℚ) + 1/2 = ((2*a+b : ℕ):ℚ)/((2*b : ℕ):ℚ) := by
    have hb' : ((b:ℕ):ℚ) ≠ 0 := by positivity
    push_cast
    field_simp
    ring
  rw [h, Rat.floor_natCast_div_natCast]
  omega

theorem extractTax_ten (n : ℕ) : extractTax (n : ℤ) "10" = (((2*n+11)/22 : ℕ) : ℤ) := by
  simp only [extractTax, taxRateOfType]
  norm_num
  have h1 : (n:ℚ) - (n:ℚ) / (11/10) = ((n:ℕ):ℚ)/((11:ℕ):ℚ) := by
    push_cast
    ring
  rw [h1, roundHalfUp_natCast_div n 11 (by norm_num)]
  omega

theorem extractTax_five (n : ℕ) : extractTax (n : ℤ) "5" = (((2*n+21)/42 : ℕ) : ℤ) := by
  simp [extractTax, taxRateOfType]
  norm_num
  have h1 : (n:ℚ) - (n:ℚ) / (21/20) = ((n:ℕ):ℚ)/((21:ℕ):ℚ) := by
    push_cast
    ring
  rw [h1, roundHalfUp_natCast_div n 21 (by norm_num)]
  omega

theorem decomposeSpec_ten (n : ℕ) :
    decomposeSpec (n : ℤ) (1/10) =
      ((((20*n+11)/22 : ℕ) : ℤ), (n : ℤ) - (((20*n+11)/22 : ℕ) : ℤ)) := by
  simp only [decomposeSpec]
  norm_num
  have h1 : (n:ℚ) / (11/10) = ((10*n:ℕ):ℚ)/((11:ℕ):ℚ) := by
    push_cast
    ring
  rw [h1, roundHalfUp_natCast_div (10*n) 11 (by norm_num)]
  omega

theorem decomposeSpec_five (n : ℕ) :
    decomposeSpec (n : ℤ) (1/20) =
      ((((40*n+21)/42 : ℕ) : ℤ), (n : ℤ) - (((40*n+21)/42 : ℕ) : ℤ)) := by
  simp only [decomposeSpec]
  norm_num
  have h1 : (n:ℚ) / (21/20) = ((20*n:ℕ):ℚ)/((21:ℕ):ℚ) := by
    push_cast
    ring
  rw [h1, roundHalfUp_natCast_div (20*n) 21 (by norm_num)]
  omega

/-- Claim C4: for every non-negative integer tax-inclusive amount and each of
the three tax categories of the system (EXENTA = exempt, '5' = 5%,
'10' = 10%), the line tax extraction of `SaleItem.calculate_totals` — which
stores tax = round_half_up(total - total/(1+rate)) and leaves
base = total - tax — produces exactly the pair demanded by the spec's
`decompose` contract (base = round_half_up(total/(1+rate)), tax = total -
base; for rate 0, base = total and tax = 0); and the spec's representative
values hold: decompose(1100, 10%) = (1000, 100), decompose(1050, 5%) =
(1000, 50), decompose(500, 0) = (500, 0). -/
theorem C4_line_tax_extraction_equals_decompose (total : ℕ) :
    ((total:ℤ) - extractTax (total:ℤ) "10", extractTax (total:ℤ) "10")
        = decomposeSpec (total:ℤ) (1/10)
    ∧ ((total:ℤ) - extractTax (total:ℤ) "5", extractTax (total:ℤ) "5")
        = decomposeSpec (total:ℤ) (1/20)
    ∧ ((total:ℤ) - extractTax (total:ℤ) "EXENTA", extractTax (total:ℤ) "EXENTA")
        = decomposeSpec (total:ℤ) 0
    ∧ decomposeSpec 1100 (1/10) = (1000, 100)
    ∧ decomposeSpec 1050 (1/20) = (1000, 50)
    ∧ decomposeSpec 500 0 = (500, 0) := by
  refine ⟨?_, ?_, ?_, ?_, ?_, ?_⟩
  · rw [extractTax_ten, decomposeSpec_ten]
    simp only [Prod.mk.injEq]
    constructor <;> omega
  · rw [extractTax_five, decomposeSpec_five]
    simp only [Prod.mk.injEq]
    constructor <;> omega
  · simp [extractTax, taxRateOfType, decomposeSpec]
  · simp [decomposeSpec, roundHalfUp]
    norm_num
  · simp [decomposeSpec, roundHalfUp]
    norm_num
  · simp [decomposeSpec]

theorem sum_map_sub_saleItems (ls : List SaleItemRow) :
    (ls.map (fun l => l.subtotal - l.tax_amount)).sum
      = (ls.map (·.subtotal)).sum - (ls.map (·.tax_amount)).sum := by
  induction ls with
  | nil => simp
  | cons x xs ih =>
      simp only [List.map_cons, List.sum_cons, ih]
      ring

/-- A one-line sale used to test the header aggregation: quantity 1 of a
product priced 1100 tax-inclusive at 10%, no discount.  Its computed line
fields are discount 0, subtotal 1100 (tax-inclusive), tax 100. -/
def c3Line : SaleItemRow :=
  calculateTotals
    { tenant := 1, sale_id := 0, product_id := 1, quantity := 1, unit_price := 1100,
      discount_percent := 0, tax_type := "10", discount_amount := 0, subtotal := 0,
      tax_amount := 0 }

/-- A blank sale header for the aggregation test. -/
def c3Sale0 : SaleRow :=
  { id := 0, tenant := 1, invoice_number := "INV-000001", customer := none, subtotal := 0,
    tax_amount := 0, discount_amount := 0, total_amount := 0, currency_paid := "PYG",
    paid_amount_original := 0, exchange_rate_usd := 7300, exchange_rate_brl := 1450,
    payment_method := "cash", paid_amount := 0, change_amount := 0, pix_reference := "",
    status := "completed", notes := "" }

/-- The header produced by the `create_sale` aggregation for the one-line
sale above. -/
def c3Header : SaleRow := saleHeaderTotals [c3Line] c3Sale0

/-- Claim C3 counterexample: for the concrete one-line sale (quantity 1, unit
price 1100 tax-inclusive, 10%, no discount) the stored header has subtotal =
1100 = total_amount and tax_amount = 100, so the claimed equations "subtotal
equals the sum of the line base amounts (line subtotal minus line tax)" and
"total_amount = subtotal + tax_amount" are both false: the header subtotal is
the tax-INCLUSIVE sum, and total_amount = subtotal ≠ subtotal + 100. -/
theorem C3_counterexample :
    ¬ (c3Header.subtotal = ([c3Line].map (fun l => l.subtotal - l.tax_amount)).sum
       ∧ c3Header.tax_amount = ([c3Line].map (·.tax_amount)).sum
       ∧ c3Header.total_amount = ([c3Line].map (·.subtotal)).sum
       ∧ c3Header.total_amount = c3Header.subtotal + c3Header.tax_amount) := by
  intro h
  obtain ⟨h1, -, -, -⟩ := h
  revert h1
  simp [c3Header, c3Sale0, c3Line, saleHeaderTotals, calculateTotals, extractTax,
        taxRateOfType, roundHalfUp]
  norm_num

/-- Claim C3 amended: for every sale assembled by the `create_sale` header
aggregation (sales/services.py lines 71-73, 99-101, 121-125), the stored
header satisfies: subtotal = sum of the line tax-INCLUSIVE post-discount
subtotals, tax_amount = sum of the line taxes, discount_amount = sum of the
line discounts, total_amount = sum of the line tax-inclusive subtotals (so
total_amount = subtotal), and total_amount = (sum of line base amounts) +
(sum of line taxes); the claimed identity total_amount = subtotal +
tax_amount does NOT hold in general (it fails whenever the tax sum is
nonzero, as the counterexample shows). -/
theorem C3_amended_header_totals (ls : List SaleItemRow) (sale : SaleRow) :
    (saleHeaderTotals ls sale).subtotal = (ls.map (·.subtotal)).sum
    ∧ (saleHeaderTotals ls sale).tax_amount = (ls.map (·.tax_amount)).sum
    ∧ (saleHeaderTotals ls sale).discount_amount = (ls.map (·.discount_amount)).sum
    ∧ (saleHeaderTotals ls sale).total_amount = (ls.map (·.subtotal)).sum
    ∧ (saleHeaderTotals ls sale).total_amount = (saleHeaderTotals ls sale).subtotal
    ∧ (saleHeaderTotals ls sale).total_amount
        = (ls.map (fun l => l.subtotal - l.tax_amount)).sum + (ls.map (·.tax_amount)).sum := by
  refine ⟨rfl, rfl, rfl, rfl, rfl, ?_⟩
  rw [sum_map_sub_saleItems]
  simp [saleHeaderTotals]

/-- A supplier ledger holding a single-installment purchase of 100 for
supplier 7, due day 50, recorded on day 40. -/
def c9Ledger0 : List SupplierAccountRow := createPurchase [] 1 7 100 "F1" 50 1 "" 40

/-- The ledger after `create_payment` posts a 40 payment (no related
purchase designated). -/
def c9Ledger : List SupplierAccountRow := createPayment c9Ledger0 1 7 40 "cash" none "" "" 41

/-- Claim C9 counterexample: after a purchase of 100 and a payment of 40,
`Supplier.get_balance` yields 60 while the signed sum of the stored amounts
is 140 — the payment row is stored with POSITIVE amount 40 and subtracted by
the balance query, so the claimed identity "balance = Σ signed amounts with
payments stored negative" is false for suppliers. -/
theorem C9_counterexample :
    supplierGetBalance c9Ledger 7 = 60
    ∧ ((c9Ledger.filter (fun r => r.supplier = 7)).map (·.amount)).sum = 140
    ∧ supplierGetBalance c9Ledger 7
        ≠ ((c9Ledger.filter (fun r => r.supplier = 7)).map (·.amount)).sum
    ∧ (∃ r ∈ c9Ledger, r.transaction_type = "payment" ∧ 0 < r.amount) := by
  refine ⟨?_, ?_, ?_, ?_⟩ <;>
    simp [c9Ledger, c9Ledger0, createPurchase, createPayment, supplierPaymentRow,
          supplierGetBalance] <;>
    norm_num

/-- Claim C9 amended: the customer balance is the plain sum of that
customer's signed `CustomerAccount` amounts, and customer payment rows are
stored negated, so posting a customer payment of `a` lowers the balance by
`a`.  On the supplier side the stored amounts are NOT signed: `create_payment`
stores a payment of `a` as +`a` and `Supplier.get_balance` subtracts the
payment sum (and ignores installment-parent rows), so the supplier balance
equals purchases(installment_number>0) - payments + adjustments rather than
the sum of stored amounts; posting a payment of `a` still lowers it by `a`,
and a single-installment purchase of `a` raises it by `a`. -/
theorem C9_amended_balance_conventions :
    (∀ (rows : List CustomerAccountRow) (c : ℕ),
       customerGetBalance rows c = ((rows.filter (fun r => r.customer = c)).map (·.amount)).sum)
    ∧ (∀ (rows : List CustomerAccountRow) (tenant c : ℕ) (a : ℚ) (pm ref notes : String),
       customerGetBalance (rows ++ [customerPaymentRow tenant c a pm ref notes]) c
         = customerGetBalance rows c - a)
    ∧ (∀ (rows : List SupplierAccountRow) (tenant sup : ℕ) (a : ℚ) (pm ref notes : String)
       (today : ℕ),
       supplierGetBalance (createPayment rows tenant sup a pm none ref notes today) sup
         = supplierGetBalance rows sup - a)
    ∧ (∀ (rows : List SupplierAccountRow) (tenant sup : ℕ) (a : ℚ) (inv notes : String)
       (due today : ℕ),
       supplierGetBalance (createPurchase rows tenant sup a inv due 1 notes today) sup
         = supplierGetBalance rows sup + a) := by
  refine ⟨fun rows c => rfl, ?_, ?_, ?_⟩
  · intro rows tenant c a pm ref notes
    simp [customerGetBalance, customerPaymentRow, List.filter_append]
    ring
  · intro rows tenant sup a pm ref notes today
    simp [supplierGetBalance, createPayment, supplierPaymentRow, List.filter_append]
    ring
  · intro rows tenant sup a inv notes due today
    simp [supplierGetBalance, createPurchase, List.filter_append]
    ring

/-- A product with 10 units in stock, used to evaluate the movement-posting
steps at a concrete input. -/
def c2Product : Product :=
  { id := 1, tenant := 1, code := "A", name := "ProdA", description := "",
    category := none, cost_price := 0, sale_price := 1100, wholesale_price := none,
    current_stock := 10, minimum_stock := 0, unit := "unit", tax_rate := 10,
    is_active := true, track_inventory := true }

/-- Claim C2, evaluated at the failing input (sale of 2 units of a product
with stock 10): the movement row that `create_sale` builds (sales/services.py
lines 103-119) stores the POSITIVE quantity 2 while the stock counter drops
from 10 to 8, so the posted 'sale' movement is not negative and replaying the
movement (previous stock + stored quantity = 12) does not reproduce the stored
counter (8): the claimed ledger invariant is broken by the very row this code
writes. -/
theorem C2_sale_movement_positive_breaks_replay :
    (createSaleStockStep 1 "INV-000002" c2Product 2).2.quantity = 2
    ∧ ¬ (createSaleStockStep 1 "INV-000002" c2Product 2).2.quantity < 0
    ∧ (createSaleStockStep 1 "INV-000002" c2Product 2).1.current_stock = 8
    ∧ c2Product.current_stock + (createSaleStockStep 1 "INV-000002" c2Product 2).2.quantity
        ≠ (createSaleStockStep 1 "INV-000002" c2Product 2).1.current_stock := by
  refine ⟨?_, ?_, ?_, ?_⟩ <;>
    simp [createSaleStockStep, c2Product] <;>
    norm_num

/-- Claim C7, evaluated at the same failing input: the 'sale' movement from
`create_sale` records previous_stock = 10, new_stock = 8 and quantity = +2,
violating new_stock = previous_stock + quantity; and the compensating
'adjustment' movement built by `cancel_sale` (sales/services.py lines 156-164)
omits both snapshot columns entirely (they are `NOT NULL`), so no movement it
posts can satisfy the invariant — the insert raises instead. -/
theorem C7_movement_snapshot_invariant_violated :
    (createSaleStockStep 1 "INV-000002" c2Product 2).2.previous_stock = some 10
    ∧ (createSaleStockStep 1 "INV-000002" c2Product 2).2.new_stock = some 8
    ∧ (createSaleStockStep 1 "INV-000002" c2Product 2).2.new_stock
        ≠ some (10 + (createSaleStockStep 1 "INV-000002" c2Product 2).2.quantity)
    ∧ (cancelSaleStockStep 1 "INV-000002" c2Product 2).2.previous_stock = none
    ∧ (cancelSaleStockStep 1 "INV-000002" c2Product 2).2.new_stock = none := by
  refine ⟨?_, ?_, ?_, ?_, ?_⟩ <;>
    simp [createSaleStockStep, cancelSaleStockStep, c2Product] <;>
    norm_num

/-- A completed one-line sale (2 × 1100, 10% tax) whose product now has
8 units in stock. -/
def c6Product : Product :=
  { id := 1, tenant := 1, code := "A", name := "ProdA", description := "",
    category := none, cost_price := 0, sale_price := 1100, wholesale_price := none,
    current_stock := 8, minimum_stock := 0, unit := "unit", tax_rate := 10,
    is_active := true, track_inventory := true }

def c6Sale : SaleRow :=
  { id := 0, tenant := 1, invoice_number := "INV-000001", customer := none,
    subtotal := 2200, tax_amount := 200, discount_amount := 0, total_amount := 2200,
    currency_paid := "PYG", paid_amount_original := 0, exchange_rate_usd := 7300,
    exchange_rate_brl := 1450, payment_method := "cash", paid_amount := 2200,
    change_amount := 0, pix_reference := "", status := "completed", notes := "" }

def c6Item : SaleItemRow :=
  { tenant := 1, sale_id := 0, product_id := 1, quantity := 2, unit_price := 1100,
    discount_percent := 0, tax_type := "10", discount_amount := 0, subtotal := 2200,
    tax_amount := 200 }

def c6DB : DB :=
  { products := [c6Product], sales := [c6Sale], saleItems := [c6Item],
    movements := [], customers := [], customerAccounts := [] }

/-- Claim C6, evaluated at the failing input (a non-cancelled one-line sale):
`cancel_sale` does NOT restore the product's stock or cancel the sale —
because its `StockMovement.objects.create` call omits the `NOT NULL` columns
`previous_stock`/`new_stock`, the insert raises `IntegrityError`, the
transaction rolls back, and the database is left exactly as it was:
stock still 8, status still 'completed'. -/
theorem C6_cancel_sale_rolls_back_with_integrity_error :
    (cancelSale c6DB 0).1 = c6DB
    ∧ (cancelSale c6DB 0).2
        = .error "IntegrityError: NOT NULL constraint failed on stock movement"
    ∧ (cancelSale c6DB 0).1.products.map (·.current_stock) = [8]
    ∧ (cancelSale c6DB 0).1.sales.map (·.status) = ["completed"] := by
  refine ⟨?_, ?_, ?_, ?_⟩ <;>
    simp [cancelSale, cancelSaleCore, cancelItems, cancelSaleStockStep, DB.findSale,
          DB.findProduct, DB.saveProduct, DB.insertMovement, c6DB, c6Sale, c6Item, c6Product]

theorem processItems_cons (tenant sale_id : ℕ) (invoice : String) (item : ItemData)
    (rest : List ItemData) (acc : ItemLoopAcc) :
    processItems tenant sale_id invoice (item :: rest) acc
      = .error "Product matching query does not exist"
    ∨ processItems tenant sale_id invoice (item :: rest) acc
      = .error "AttributeError: Product object has no attribute tax_type" := by
  cases h : acc.db.findProduct tenant item.product_id with
  | none => left; simp [processItems, h]
  | some p => right; simp [processItems, h, Product.getattr_tax_type]

theorem processItems_ok (tenant sale_id : ℕ) (invoice : String) (items : List ItemData)
    (acc r : ItemLoopAcc) (h : processItems tenant sale_id invoice items acc = .ok r) :
    items = [] ∧ r = acc := by
  cases items with
  | nil =>
      refine ⟨rfl, ?_⟩
      simp [processItems] at h
      exact h.symm
  | cons it rest =>
      rcases processItems_cons tenant sale_id invoice it rest acc with hc | hc <;>
        rw [hc] at h <;> simp at h

theorem createSaleCore_ok_items_nil (db : DB) (a : CreateSaleArgs) (r : DB × SaleRow)
    (h : createSaleCore db a = .ok r) : a.items_data = [] := by
  cases hitems : a.items_data with
  | nil => rfl
  | cons it rest =>
      exfalso
      simp only [createSaleCore, hitems] at h
      split at h
      · simp at h
      · rename_i acc heq
        have := (processItems_ok _ _ _ _ _ _ heq).1
        simp at this

theorem processItems_error_msg (tenant sale_id : ℕ) (invoice : String)
    (items : List ItemData) (acc : ItemLoopAcc) (e : String)
    (h : processItems tenant sale_id invoice items acc = .error e) :
    e = "Product matching query does not exist"
    ∨ e = "AttributeError: Product object has no attribute tax_type" := by
  cases items with
  | nil => simp [processItems] at h
  | cons it rest =>
      rcases processItems_cons tenant sale_id invoice it rest acc with hc | hc <;>
        rw [hc] at h <;> simp at h <;> simp [h]

theorem createSaleCore_cons_error_msg (db : DB) (a : CreateSaleArgs) (it : ItemData)
    (rest : List ItemData) (h : a.items_data = it :: rest) :
    createSaleCore db a = .error "Product matching query does not exist"
    ∨ createSaleCore db a = .error "AttributeError: Product object has no attribute tax_type" := by
  rcases hres : createSaleCore db a with e | r
  · have hmsg : e = "Product matching query does not exist"
        ∨ e = "AttributeError: Product object has no attribute tax_type" := by
      simp only [createSaleCore, h] at hres
      split at hres
      · rename_i e' heq
        have := processItems_error_msg _ _ _ _ _ _ heq
        simp only [Except.error.injEq] at hres
        rw [hres] at this
        exact this
      · rename_i acc heq
        have := (processItems_ok _ _ _ _ _ _ heq).1
        simp at this
    rcases hmsg with hm | hm
    · left; rw [hm]
    · right; rw [hm]
  · have := createSaleCore_ok_items_nil db a r hres
    rw [h] at this
    simp at this

theorem createSale_rollback_of_cons (db : DB) (a : CreateSaleArgs) (it : ItemData)
    (rest : List ItemData) (h : a.items_data = it :: rest) :
    (createSale db a).1 = db
    ∧ ((createSale db a).2 = .error "Product matching query does not exist"
       ∨ (createSale db a).2 = .error "AttributeError: Product object has no attribute tax_type") := by
  rcases createSaleCore_cons_error_msg db a it rest h with hc | hc <;>
    simp [createSale, hc]

theorem createSale_ok_shape (db : DB) (a : CreateSaleArgs) (s : SaleRow)
    (hok : (createSale db a).2 = .ok s) :
    a.items_data = []
    ∧ s.invoice_number = genInvoiceNumber db a.tenant
    ∧ s.subtotal = 0 ∧ s.tax_amount = 0 ∧ s.discount_amount = 0 ∧ s.total_amount = 0
    ∧ s.status = "completed" ∧ s.tenant = a.tenant
    ∧ (createSale db a).1.saleItems = db.saleItems
    ∧ (createSale db a).1.movements = db.movements
    ∧ (createSale db a).1.products = db.products
    ∧ (createSale db a).1.customerAccounts = db.customerAccounts := by
  rcases hres : createSaleCore db a with e | r
  · simp [createSale, hres] at hok
  · have hwrap : (createSale db a).1 = r.1 ∧ (createSale db a).2 = .ok r.2 := by
      simp [createSale, hres]
    have hs : s = r.2 := by
      rw [hwrap.2] at hok
      exact (Except.ok.injEq _ _ ▸ hok).symm
    have hnil := createSaleCore_ok_items_nil db a r hres
    simp only [createSaleCore, hnil, processItems] at hres
    split at hres
    · simp at hres
    · rename_i db1 heq
      simp only [Except.ok.injEq] at hres
      subst hres
      have hdb1 : db1.saleItems = db.saleItems ∧ db1.movements = db.movements
          ∧ db1.products = db.products ∧ db1.customerAccounts = db.customerAccounts := by
        split at heq
        · split at heq
          · split at heq
            · simp only [Except.ok.injEq] at heq
              subst heq
              simp [DB.saveCustomer]
            · simp at heq
          · simp only [Except.ok.injEq] at heq
            subst heq
            simp
        · simp only [Except.ok.injEq] at heq
          subst heq
          simp
      rw [hs]
      refine ⟨hnil, ?_, ?_, ?_, ?_, ?_, ?_, ?_, ?_, ?_, ?_, ?_⟩ <;>
        first
          | (split <;> rfl)
          | (rw [hwrap.1]; simp [DB.saveSale, hdb1.1, hdb1.2.1, hdb1.2.2.1, hdb1.2.2.2])

theorem createSale_credit_effect (db : DB) (a : CreateSaleArgs) (cid : ℕ) (c : CustomerRow)
    (s : SaleRow) (hpm : a.payment_method = "credit") (hcust : a.customer = some cid)
    (hfind : db.findCustomer a.tenant cid = some c)
    (hok : (createSale db a).2 = .ok s) :
    (createSale db a).1.customers
      = db.customers.map (fun d =>
          if d.id = c.id then
            { c with current_balance := c.current_balance + (s.outstanding_balance : ℚ) }
          else d) := by
  rcases hres : createSaleCore db a with e | r
  · simp [createSale, hres] at hok
  · have hwrap : (createSale db a).1 = r.1 ∧ (createSale db a).2 = .ok r.2 := by
      simp [createSale, hres]
    have hs : s = r.2 := by
      rw [hwrap.2] at hok
      exact (Except.ok.injEq _ _ ▸ hok).symm
    have hnil := createSaleCore_ok_items_nil db a r hres
    simp only [createSaleCore, hnil, processItems, hpm, hcust] at hres
    simp [DB.findCustomer] at hfind
    simp [DB.findCustomer, hfind] at hres
    subst hres
    rw [hwrap.1, hs]
    simp [DB.saveSale, DB.saveCustomer]

/-- Claim C10: `create_sale` snapshots `tax_type=product.tax_type`
(sales/services.py line 94) but `Product` (stock/models.py) defines only
`tax_rate` and no `tax_type`, so for every call whose `items_data` is
non-empty the first loop iteration raises — `AttributeError` when the product
resolves, `DoesNotExist` when it does not — and, the whole body being one
transaction, the database is left exactly as it was. -/
theorem C10_create_sale_always_raises (db : DB) (a : CreateSaleArgs)
    (h : a.items_data ≠ []) :
    (∀ p : Product, p.getattr "tax_type" = none)
    ∧ (createSale db a).1 = db
    ∧ ((createSale db a).2 = .error "Product matching query does not exist"
       ∨ (createSale db a).2 = .error "AttributeError: Product object has no attribute tax_type") := by
  cases hitems : a.items_data with
  | nil => exact absurd hitems h
  | cons it rest =>
      obtain ⟨h1, h2⟩ := createSale_rollback_of_cons db a it rest hitems
      exact ⟨fun p => rfl, h1, h2⟩

def c10DB : DB :=
  { products := [c2Product], sales := [], saleItems := [], movements := [],
    customers := [], customerAccounts := [] }

def c10Args : CreateSaleArgs :=
  { tenant := 1,
    items_data := [{ product_id := 1, quantity := 2, unit_price := none, discount_percent := 0 }],
    customer := none, payment_method := "cash", paid_amount := 5000, notes := "",
    currency_paid := "PYG", paid_amount_original := 0, exchange_rate_usd := 7300,
    exchange_rate_brl := 1450, pix_reference := "" }

/-- Witness for C10 at a concrete one-item sale against an existing product. -/
theorem C10_witness :
    c10Args.items_data ≠ []
    ∧ ((∀ p : Product, p.getattr "tax_type" = none)
       ∧ (createSale c10DB c10Args).1 = c10DB
       ∧ ((createSale c10DB c10Args).2 = .error "Product matching query does not exist"
          ∨ (createSale c10DB c10Args).2
              = .error "AttributeError: Product object has no attribute tax_type")) := by
  have h : c10Args.items_data ≠ [] := by simp [c10Args]
  exact ⟨h, C10_create_sale_always_raises c10DB c10Args h⟩

/-- Claim C1: whenever some requested item's quantity exceeds its product's
current stock, `create_sale` fails and persists nothing: no Sale row, no
SaleItem row, no StockMovement row, and no stock change.  (It holds because
the item loop aborts on `product.tax_type` before any stock write — the
service performs no stock-availability validation at all; see C10.) -/
theorem C1_insufficient_stock_sale_rolls_back (db : DB) (a : CreateSaleArgs)
    (h : ∃ it ∈ a.items_data, ∃ p, db.findProduct a.tenant it.product_id = some p
          ∧ p.current_stock < (it.quantity : ℚ)) :
    (createSale db a).1.sales = db.sales
    ∧ (createSale db a).1.saleItems = db.saleItems
    ∧ (createSale db a).1.movements = db.movements
    ∧ (createSale db a).1.products = db.products
    ∧ ∃ e, (createSale db a).2 = .error e := by
  obtain ⟨it, hmem, -⟩ := h
  cases hitems : a.items_data with
  | nil =>
      rw [hitems] at hmem
      simp at hmem
  | cons it0 rest =>
      obtain ⟨h1, h2⟩ := createSale_rollback_of_cons db a it0 rest hitems
      refine ⟨by rw [h1], by rw [h1], by rw [h1], by rw [h1], ?_⟩
      rcases h2 with hc | hc
      · exact ⟨_, hc⟩
      · exact ⟨_, hc⟩

def c1Product : Product := { c2Product with current_stock := 1 }

def c1DB : DB :=
  { products := [c1Product], sales := [], saleItems := [], movements := [],
    customers := [], customerAccounts := [] }

def c1Args : CreateSaleArgs :=
  { c10Args with
    items_data := [{ product_id := 1, quantity := 5, unit_price := none, discount_percent := 0 }] }

/-- Witness for C1: requesting 5 units of a product with 1 in stock. -/
theorem C1_witness :
    (∃ it ∈ c1Args.items_data, ∃ p, c1DB.findProduct c1Args.tenant it.product_id = some p
        ∧ p.current_stock < (it.quantity : ℚ))
    ∧ ((createSale c1DB c1Args).1.sales = c1DB.sales
       ∧ (createSale c1DB c1Args).1.saleItems = c1DB.saleItems
       ∧ (createSale c1DB c1Args).1.movements = c1DB.movements
       ∧ (createSale c1DB c1Args).1.products = c1DB.products
       ∧ ∃ e, (createSale c1DB c1Args).2 = .error e) := by
  have h : ∃ it ∈ c1Args.items_data, ∃ p,
      c1DB.findProduct c1Args.tenant it.product_id = some p
      ∧ p.current_stock < (it.quantity : ℚ) := by
    refine ⟨{ product_id := 1, quantity := 5, unit_price := none, discount_percent := 0 },
      by simp [c1Args, c10Args], c1Product, ?_, ?_⟩
    · simp [c1DB, DB.findProduct, c1Product, c2Product, c1Args, c10Args]
    · norm_num [c1Product, c2Product]
  exact ⟨h, C1_insufficient_stock_sale_rolls_back c1DB c1Args h⟩

/-- On success and on rollback alike, `create_sale` writes no
`CustomerAccount` row: the ledger table is untouched. -/
theorem createSale_customerAccounts (db : DB) (a : CreateSaleArgs) :
    (createSale db a).1.customerAccounts = db.customerAccounts := by
  cases hres : createSaleCore db a with
  | error e => simp [createSale, hres]
  | ok r =>
      have hok : (createSale db a).2 = .ok r.2 := by simp [createSale, hres]
      obtain ⟨-, -, -, -, -, -, -, -, -, -, -, hca⟩ := createSale_ok_shape db a r.2 hok
      exact hca

def c5Customer : CustomerRow :=
  { id := 3, tenant := 1, name := "Cliente", credit_limit := 0, current_balance := 0 }

def c5DB : DB :=
  { products := [], sales := [], saleItems := [], movements := [],
    customers := [c5Customer], customerAccounts := [] }

/-- A credit sale for customer 3 with no line items and paid_amount -50,
which gives the stored sale an outstanding balance of 50. -/
def c5Args : CreateSaleArgs :=
  { tenant := 1, items_data := [], customer := some 3, payment_method := "credit",
    paid_amount := -50, notes := "", currency_paid := "PYG", paid_amount_original := 0,
    exchange_rate_usd := 7300, exchange_rate_brl := 1450, pix_reference := "" }

/-- Claim C5 counterexample: this credit `create_sale` call succeeds, yet no
`CustomerAccount` ledger entry of any kind is created (the table stays
empty), while the customer's stored `current_balance` becomes 50 — so the
stored balance (50) does not equal the sum of the customer's ledger amounts
(0), falsifying both the "a CustomerAccount sale entry is created" part and
the balance/ledger relation of the claim. -/
theorem C5_counterexample :
    (∃ s, (createSale c5DB c5Args).2 = Except.ok s)
    ∧ (createSale c5DB c5Args).1.customerAccounts = []
    ∧ (createSale c5DB c5Args).1.customers.map (·.current_balance) = [50]
    ∧ customerGetBalance ((createSale c5DB c5Args).1.customerAccounts) 3 = 0 := by
  refine ⟨?_, ?_, ?_, ?_⟩ <;>
    simp [createSale, createSaleCore, processItems, genInvoiceNumber, DB.freshSaleId,
          DB.findCustomer, DB.saveCustomer, DB.saveSale, ratTruncToInt,
          SaleRow.outstanding_balance, customerGetBalance, c5DB, c5Args, c5Customer] <;>
    norm_num

/-- Claim C5 amended: for every successful credit `create_sale` with a
customer, NO CustomerAccount ledger entry is created — the ledger table and
the customer's ledger sum (`Customer.get_balance`) are unchanged — and the
only effect on the customer is that the stored `current_balance` field is
incremented by the sale's outstanding balance.  The claimed relation
"current_balance = sum of CustomerAccount amounts" is therefore not
preserved by credit sales (see the counterexample). -/
theorem C5_amended_credit_updates_balance_without_ledger_entry
    (db : DB) (a : CreateSaleArgs) (cid : ℕ) (c : CustomerRow) (s : SaleRow)
    (hpm : a.payment_method = "credit") (hcust : a.customer = some cid)
    (hfind : db.findCustomer a.tenant cid = some c)
    (hok : (createSale db a).2 = .ok s) :
    (createSale db a).1.customerAccounts = db.customerAccounts
    ∧ customerGetBalance (createSale db a).1.customerAccounts cid
        = customerGetBalance db.customerAccounts cid
    ∧ (createSale db a).1.customers
        = db.customers.map (fun d =>
            if d.id = c.id then
              { c with current_balance := c.current_balance + (s.outstanding_balance : ℚ) }
            else d) := by
  refine ⟨createSale_customerAccounts db a, ?_,
    createSale_credit_effect db a cid c s hpm hcust hfind hok⟩
  rw [createSale_customerAccounts db a]

/-- The sale row returned by the concrete credit call of the C5 scenario. -/
def c5Sale : SaleRow :=
  { id := 0, tenant := 1, invoice_number := "INV-000001", customer := some 3,
    subtotal := 0, tax_amount := 0, discount_amount := 0, total_amount := 0,
    currency_paid := "PYG", paid_amount_original := 0, exchange_rate_usd := 7300,
    exchange_rate_brl := 1450, payment_method := "credit", paid_amount := -50,
    change_amount := 0, pix_reference := "", status := "completed", notes := "" }

/-- Witness for the amended C5 at the concrete credit sale of the
counterexample scenario. -/
theorem C5_witness :
    c5Args.payment_method = "credit"
    ∧ c5Args.customer = some 3
    ∧ c5DB.findCustomer c5Args.tenant 3 = some c5Customer
    ∧ (createSale c5DB c5Args).2 = .ok c5Sale
    ∧ ((createSale c5DB c5Args).1.customerAccounts = c5DB.customerAccounts
       ∧ customerGetBalance (createSale c5DB c5Args).1.customerAccounts 3
           = customerGetBalance c5DB.customerAccounts 3
       ∧ (createSale c5DB c5Args).1.customers
           = c5DB.customers.map (fun d =>
               if d.id = c5Customer.id then
                 { c5Customer with
                     current_balance :=
                       c5Customer.current_balance + (c5Sale.outstanding_balance : ℚ) }
               else d)) := by
  have hpm : c5Args.payment_method = "credit" := rfl
  have hcust : c5Args.customer = some 3 := rfl
  have hfind : c5DB.findCustomer c5Args.tenant 3 = some c5Customer := by
    simp [c5DB, DB.findCustomer, c5Customer, c5Args]
  have hok : (createSale c5DB c5Args).2 = .ok c5Sale := by
    simp [createSale, createSaleCore, processItems, genInvoiceNumber, DB.freshSaleId,
          DB.findCustomer, DB.saveCustomer, DB.saveSale, ratTruncToInt,
          SaleRow.outstanding_balance, c5DB, c5Args, c5Customer, c5Sale]
    norm_num
  exact ⟨hpm, hcust, hfind, hok,
    C5_amended_credit_updates_balance_without_ledger_entry c5DB c5Args 3 c5Customer c5Sale
      hpm hcust hfind hok⟩

theorem digitChar_round (d : ℕ) (hd : d < 10) :
    isAsciiDigit (Nat.digitChar d) = true
    ∧ Nat.digitChar d ≠ '-'
    ∧ charDigit (Nat.digitChar d) = d := by
  interval_cases d <;> refine ⟨by decide, by decide, by decide⟩

theorem natDigitChars_all_digits (n : ℕ) :
    ∀ x ∈ natDigitChars n, isAsciiDigit x = true ∧ x ≠ '-' := by
  intro x hx
  simp only [natDigitChars, List.mem_reverse, List.mem_map] at hx
  obtain ⟨d, hd, rfl⟩ := hx
  have hlt : d < 10 := Nat.digits_lt_base (by norm_num) hd
  exact ⟨(digitChar_round d hlt).1, (digitChar_round d hlt).2.1⟩

theorem ofDigits_replicate_zero (k : ℕ) : Nat.ofDigits 10 (List.replicate k 0) = 0 := by
  induction k with
  | zero => simp [Nat.ofDigits]
  | succ m ih => simp [List.replicate, Nat.ofDigits, ih]

theorem map_charDigit_natDigitChars (n : ℕ) :
    (natDigitChars n).map charDigit = (Nat.digits 10 n).reverse := by
  simp only [natDigitChars, List.map_reverse]
  congr 1
  rw [List.map_map]
  have : ∀ d ∈ Nat.digits 10 n, (charDigit ∘ Nat.digitChar) d = id d := by
    intro d hd
    have hlt : d < 10 := Nat.digits_lt_base (by norm_num) hd
    simpa using (digitChar_round d hlt).2.2
  rw [List.map_congr_left this, List.map_id]

theorem pyIntOfDigits_pad (n k : ℕ)
    (hne : List.replicate k '0' ++ natDigitChars n ≠ []) :
    pyIntOfDigits (List.replicate k '0' ++ natDigitChars n) = some n := by
  have hdigits := natDigitChars_all_digits n
  rw [pyIntOfDigits, if_pos]
  · congr 1
    have hrep : (List.replicate k '0').map charDigit = List.replicate k 0 := by
      rw [List.map_replicate]
      rfl
    rw [List.map_append, List.reverse_append, map_charDigit_natDigitChars,
        List.reverse_reverse, hrep, List.reverse_replicate, Nat.ofDigits_append,
        ofDigits_replicate_zero, Nat.ofDigits_digits]
    ring
  · refine ⟨hne, ?_⟩
    rw [List.all_append]
    simp only [Bool.and_eq_true]
    refine ⟨?_, ?_⟩
    · simp [List.all_eq_true, isAsciiDigit]
    · rw [List.all_eq_true]
      intro x hx
      exact (hdigits x hx).1

theorem splitOnChar_no_sep (c : Char) (l : List Char) (h : ∀ x ∈ l, x ≠ c) :
    splitOnChar c l = [l] := by
  induction l with
  | nil => rfl
  | cons x xs ih =>
      rw [splitOnChar, if_neg (h x (by simp)), ih (fun y hy => h y (by simp [hy]))]

theorem pad6_ne_nil (n : ℕ) :
    List.replicate (6 - (natDigitChars n).length) '0' ++ natDigitChars n ≠ [] := by
  cases hn : natDigitChars n with
  | nil => simp [hn]
  | cons c cs => simp

/-- Round trip of the invoice format: the number the generator embeds in
`INV-%06d` is recovered by the parser (split on '-' and read the digits). -/
theorem parseInvoiceTail_fmtInvoice (n : ℕ) : parseInvoiceTail (fmtInvoice n) = some n := by
  have hpad : ∀ x ∈ List.replicate (6 - (natDigitChars n).length) '0' ++ natDigitChars n,
      x ≠ '-' := by
    intro x hx
    rcases List.mem_append.mp hx with hx | hx
    · rw [List.eq_of_mem_replicate hx]
      decide
    · exact (natDigitChars_all_digits n x hx).2
  have hsplit : splitOnChar '-'
      (List.replicate (6 - (natDigitChars n).length) '0' ++ natDigitChars n)
      = [List.replicate (6 - (natDigitChars n).length) '0' ++ natDigitChars n] :=
    splitOnChar_no_sep _ _ hpad
  rw [parseInvoiceTail, fmtInvoice]
  show pyIntOfDigits ((splitOnChar '-'
      ('I' :: 'N' :: 'V' :: '-' ::
        (List.replicate (6 - (natDigitChars n).length) '0' ++ natDigitChars n))).getLastD [])
    = some n
  rw [splitOnChar, splitOnChar, splitOnChar, splitOnChar, hsplit]
  simp only [if_neg, if_pos]
  norm_num
  exact pyIntOfDigits_pad n _ (pad6_ne_nil n)

theorem fmtInvoice_ne_empty (n : ℕ) : fmtInvoice n ≠ "" := by
  intro h
  have hdata : (fmtInvoice n).data = "".data := by rw [h]
  simp [fmtInvoice] at hdata

/-- When the tenant's most recent sale carries a well-formed `INV-%06d`
invoice, the generator produces exactly the successor number. -/
theorem genInvoiceNumber_succ (db : DB) (t : ℕ) (last_sale : SaleRow) (n : ℕ)
    (hlast : (db.sales.filter (fun sl => sl.tenant = t)).getLast? = some last_sale)
    (hinv : last_sale.invoice_number = fmtInvoice n) :
    genInvoiceNumber db t = fmtInvoice (n + 1) := by
  simp [genInvoiceNumber, hlast, hinv, fmtInvoice_ne_empty, parseInvoiceTail_fmtInvoice]

def c8SaleA : SaleRow :=
  { id := 0, tenant := 1, invoice_number := "INV-000001", customer := none, subtotal := 0,
    tax_amount := 0, discount_amount := 0, total_amount := 0, currency_paid := "PYG",
    paid_amount_original := 0, exchange_rate_usd := 7300, exchange_rate_brl := 1450,
    payment_method := "cash", paid_amount := 0, change_amount := 0, pix_reference := "",
    status := "completed", notes := "" }

def c8SaleB : SaleRow := { c8SaleA with id := 1, invoice_number := "ABC" }

/-- A tenant whose sales are `INV-000001` followed by one whose invoice
number (`ABC`) does not parse. -/
def c8DB : DB :=
  { products := [], sales := [c8SaleA, c8SaleB], saleItems := [], movements := [],
    customers := [], customerAccounts := [] }

def c8Args : CreateSaleArgs :=
  { tenant := 1, items_data := [], customer := none, payment_method := "cash",
    paid_amount := 0, notes := "", currency_paid := "PYG", paid_amount_original := 0,
    exchange_rate_usd := 7300, exchange_rate_brl := 1450, pix_reference := "" }

/-- Claim C8 counterexample: when the most recent invoice fails to parse, the
fallback is the CONSTANT string `INV-000001`, not a time-based value — here
the new sale is assigned `INV-000001` even though an older sale of the same
tenant already bears it, so after the call two sales of tenant 1 share the
invoice number: neither unique nor monotonically increasing. -/
theorem C8_counterexample :
    ((createSale c8DB c8Args).2.map (fun s => s.invoice_number)) = Except.ok "INV-000001"
    ∧ ((c8DB.sales.map (fun s => s.invoice_number)).contains "INV-000001" = true)
    ∧ (((createSale c8DB c8Args).1.sales.filter
          (fun s => s.invoice_number = "INV-000001" ∧ s.tenant = 1)).length = 2) := by
  have hparse : parseInvoiceTail "ABC" = none := by decide
  have hgen : genInvoiceNumber c8DB 1 = "INV-000001" := by
    simp [genInvoiceNumber, c8DB, c8SaleA, c8SaleB, hparse]
  refine ⟨?_, by decide, ?_⟩ <;>
    (simp only [createSale, createSaleCore, processItems, c8Args]
     rw [hgen]
     simp [c8DB, c8SaleA, c8SaleB, DB.freshSaleId, DB.saveSale, ratTruncToInt, Except.map])

/-- Claim C8 amended: the invoice number of a sale created by `create_sale`
is derived from the tenant's most recent sale: when that sale's invoice is
the well-formed `INV-%06d` encoding of n, the new sale receives
`INV-%06d` of n+1 — parseable back to n+1 and strictly larger — so numbers
are monotonically increasing and fresh along chains of well-formed invoices;
when parsing fails (or no sale exists) the fallback is the constant
`INV-000001` (not time-based), for which neither uniqueness nor monotonicity
holds (see the counterexample). -/
theorem C8_amended_invoice_generation (db : DB) (a : CreateSaleArgs)
    (s last_sale : SaleRow) (n : ℕ)
    (hlast : (db.sales.filter (fun sl => sl.tenant = a.tenant)).getLast? = some last_sale)
    (hinv : last_sale.invoice_number = fmtInvoice n)
    (hok : (createSale db a).2 = .ok s) :
    s.invoice_number = fmtInvoice (n + 1)
    ∧ parseInvoiceTail s.invoice_number = some (n + 1)
    ∧ n < n + 1 := by
  obtain ⟨-, hinvS, -⟩ := createSale_ok_shape db a s hok
  rw [hinvS, genInvoiceNumber_succ db a.tenant last_sale n hlast hinv]
  exact ⟨rfl, parseInvoiceTail_fmtInvoice (n + 1), Nat.lt_succ_self n⟩

def c8wLast : SaleRow := { c8SaleA with invoice_number := fmtInvoice 7 }

def c8wDB : DB := { c8DB with sales := [c8wLast] }

def c8wSale : SaleRow := { c8SaleA with id := 1, invoice_number := fmtInvoice 8 }

/-- Witness for the amended C8: after a sale numbered `INV-000007`, the next
`create_sale` issues `INV-000008`. -/
theorem C8_witness :
    ((c8wDB.sales.filter (fun sl => sl.tenant = c8Args.tenant)).getLast? = some c8wLast)
    ∧ c8wLast.invoice_number = fmtInvoice 7
    ∧ (createSale c8wDB c8Args).2 = .ok c8wSale
    ∧ (c8wSale.invoice_number = fmtInvoice 8
       ∧ parseInvoiceTail c8wSale.invoice_number = some 8
       ∧ 7 < 8) := by
  have hlast : (c8wDB.sales.filter (fun sl => sl.tenant = c8Args.tenant)).getLast?
      = some c8wLast := by
    simp [c8wDB, c8wLast, c8SaleA, c8Args, c8DB]
  have hok : (createSale c8wDB c8Args).2 = .ok c8wSale := by
    have hgen : genInvoiceNumber c8wDB 1 = fmtInvoice 8 :=
      genInvoiceNumber_succ c8wDB 1 c8wLast 7 hlast rfl
    simp only [createSale, createSaleCore, processItems, c8Args]
    rw [hgen]
    simp [c8wDB, c8wLast, c8SaleA, c8DB, DB.freshSaleId, DB.saveSale, ratTruncToInt, c8wSale]
  exact ⟨hlast, rfl, hok,
    C8_amended_invoice_generation c8wDB c8Args c8wSale c8wLast 7 hlast rfl hok⟩
